import Mathlib

/-!
Shallow embedding of the retry/backoff engine and error-classification layer
of the rest-client repository.

Two implementation families exist in the source and both are embedded here:
  * the `rest_client` package (`rest_client/retry.py`, `rest_client/exceptions.py`,
    `rest_client/client.py`), and
  * the single-file `gemini` variant (`gemini/client.py`, `gemini/exceptions.py`);
    its definitions are prefixed with `G`/`g` below.

Python floats are modelled as rationals (all constants appearing in the code and
in the checked properties are dyadic, so this is exact); the random draws of
`random.random()` and `random.uniform(0.5, 1.5)` are passed in as explicit
parameters; side effects (sleeping, logging) are recorded in an explicit trace.
-/

/-- Characters stripped by Python `str.strip()` (the whitespace forms that
can realistically occur in a header value). -/
def isPySpace (c : Char) : Bool :=
  c == ' ' || c == '\t' || c == '\n' || c == '\r'

/-- Strip leading and trailing whitespace from a character list. -/
def trimChars (l : List Char) : List Char :=
  ((l.dropWhile isPySpace).reverse.dropWhile isPySpace).reverse

/-- Parse a non-empty all-digit character list as a natural number (the
semantics of the digit run accepted by Python `int`/`float`). -/
def parseNatChars? (l : List Char) : Option Nat :=
  if l.isEmpty || !(l.all (fun c => c.isDigit)) then none
  else some (l.foldl (fun acc c => acc * 10 + (c.toNat - 48)) 0)

/-- Model of Python `int(s)` restricted to the string shapes relevant here:
optional surrounding whitespace, an optional sign, then decimal digits.
Returns `none` where Python raises `ValueError` (all other failure shapes,
e.g. HTTP-date strings, also return `none`; digit-group underscores are not
modelled). -/
def pyInt? (s : String) : Option Int :=
  match trimChars s.data with
  | '-' :: rest => (parseNatChars? rest).map (fun n => -(n : Int))
  | '+' :: rest => (parseNatChars? rest).map (fun n => (n : Int))
  | t => (parseNatChars? t).map (fun n => (n : Int))

/-- Split a character list at every occurrence of the given character. -/
def splitChar (c : Char) : List Char → List (List Char)
  | [] => [[]]
  | x :: xs =>
    if x == c then [] :: splitChar c xs
    else
      match splitChar c xs with
      | [] => [[x]]
      | h :: t => (x :: h) :: t

/-- Helper for `pyFloat?`: an unsigned decimal literal, `digits`,
`digits.digits`, `digits.` or `.digits`. -/
def parseDecimal? (t : List Char) : Option ℚ :=
  match splitChar '.' t with
  | [a] => (parseNatChars? a).map (fun n => (n : ℚ))
  | [a, b] =>
    if a.isEmpty && b.isEmpty then none
    else
      let ip := if a.isEmpty then some (0 : ℚ) else (parseNatChars? a).map (fun n => (n : ℚ))
      let fp := if b.isEmpty then some (0 : ℚ)
                else (parseNatChars? b).map (fun n => (n : ℚ) / 10 ^ b.length)
      match ip, fp with
      | some i, some f => some (i + f)
      | _, _ => none
  | _ => none

/-- Model of Python `float(s)` restricted to plain decimal literals with an
optional sign (exponents, `inf`, `nan` are not needed by any checked claim);
`none` where Python raises `ValueError`. -/
def pyFloat? (s : String) : Option ℚ :=
  match trimChars s.data with
  | '-' :: rest => (parseDecimal? rest).map Neg.neg
  | '+' :: rest => parseDecimal? rest
  | t => parseDecimal? t

/-- Python truthiness of a string: the empty string is falsy. -/
def strFalsy (s : String) : Bool :=
  s.data.isEmpty

/-- Model of the outcomes of `response.json()` as consumed by
`raise_for_status` (rest_client/exceptions.py lines 122-129): the body either
fails to parse, parses to a non-dict value, or parses to a dict whose optional
string-valued fields `message` and `error` are recorded. -/
inductive JsonBody where
  | parseFail
  | notDict
  | dict (message : Option String) (error : Option String)
deriving DecidableEq

/-- Model of an `httpx.Response` restricted to the fields the embedded code
reads: `status_code`, the header map, `reason_phrase`, `text`, and the
`json()` outcome. -/
structure Resp where
  status_code : Nat
  headers : List (String × String) := []
  reason_phrase : String := ""
  text : String := ""
  body : JsonBody := .parseFail
deriving DecidableEq

/-- Model of `response.headers.get(key)`: httpx header lookup is
case-insensitive, first match wins. -/
def Resp.headerGet (r : Resp) (k : String) : Option String :=
  (r.headers.find? (fun p => p.fst.data.map Char.toLower == k.data.map Char.toLower)).map
    (fun p => p.snd)

/-- Configuration from `rest_client/retry.py` lines 20-42 (`RetryConfig`);
the Python `retry_status_codes or {408, 429, 500, 502, 503, 504}` default is
the structure default here. `max_retries` is a natural number (the code is
only ever used with non-negative values). -/
structure RetryConfig where
  max_retries : Nat := 3
  retry_status_codes : List Nat := [408, 429, 500, 502, 503, 504]
  backoff_factor : ℚ := 1/2
  max_backoff : ℚ := 60
  jitter : Bool := true
deriving DecidableEq

/-- The exception values that can reach `RetryHandler.execute` in the
rest_client family: the two raw httpx exceptions recognised by
`should_retry`, the two converted client exceptions raised by
`Client._send_request.make_request` (rest_client/client.py lines 213-218),
and any other exception (e.g. `ValueError`). -/
inductive Exc where
  | httpxConnectError
  | httpxReadTimeout
  | clientConnectionError
  | clientTimeoutError
  | otherExc
deriving DecidableEq

/-- Translation of `RetryConfig.should_retry` (rest_client/retry.py lines
44-74): budget check first, then the exception branch (only raw
`httpx.ConnectError` / `httpx.ReadTimeout` are retryable), then the
status-code branch. -/
def shouldRetry (cfg : RetryConfig) (attempt : Nat)
    (response : Option Resp) (exception : Option Exc) : Bool :=
  if cfg.max_retries ≤ attempt then false
  else
    match exception with
    | some e =>
      match e with
      | .httpxConnectError => true
      | .httpxReadTimeout => true
      | _ => false
    | none =>
      match response with
      | some r => cfg.retry_status_codes.contains r.status_code
      | none => false

/-- Translation of `RetryConfig.get_backoff_time` (rest_client/retry.py lines
76-99). `u` models the draw of `random.random()` (a value in `[0, 1)`). -/
def getBackoffTime (cfg : RetryConfig) (attempt : Nat)
    (retry_after : Option Int) (u : ℚ) : ℚ :=
  match retry_after with
  | some ra => min (ra : ℚ) cfg.max_backoff
  | none =>
    let backoff := cfg.backoff_factor * 2 ^ attempt
    let backoff := min backoff cfg.max_backoff
    if cfg.jitter then backoff * (1/2 + u) else backoff

/-- The result of one call of the attempt function `func` as seen by
`RetryHandler.execute`: either a response or a raised exception. -/
inductive AttemptResult where
  | resp (r : Resp)
  | exc (e : Exc)
deriving DecidableEq

/-- Translation of the Retry-After extraction inlined in both
`RetryHandler.execute` (rest_client/retry.py lines 141-149) and
`RetryHandler.execute_async` (lines 220-228): the header is read only for
status 429; a falsy header (absent or empty) and a parse failure
(`except ValueError: pass`) both leave `retry_after = None`. -/
def extractRetryAfter (r : Resp) : Option Int :=
  if r.status_code == 429 then
    match r.headerGet ("Retry-After") with
    | some h => if strFalsy h then none else pyInt? h
    | none => none
  else none

/-- How a call of `RetryHandler.execute` / `execute_async` ends: a returned
response, a raised exception, or the (dead-code) final
`raise RuntimeError(...)`. -/
inductive ExecResult where
  | ok (r : Resp)
  | raised (e : Exc)
  | runtimeError
deriving DecidableEq

/-- Observable trace of one `execute` call: its result, the number of calls
made to the attempt function, and the list of sleeps performed (in order). -/
structure ExecTrace where
  result : ExecResult
  calls : Nat
  delays : List ℚ
deriving DecidableEq

/-- Translation of the loop body of `RetryHandler.execute`
(rest_client/retry.py lines 130-191). `f k` is the outcome of the `k`-th call
of `func` (calls are numbered like `attempt`, one call per iteration);
`u k` is the `random.random()` draw available at attempt `k`. The fuel
argument counts the remaining iterations of `for attempt in
range(max_retries + 1)`; the fuel-zero case is the post-loop code of lines
182-191 (unreachable for the actual entry fuel, as the loop always returns
or raises at the last attempt). -/
def executeLoop (cfg : RetryConfig) (f : Nat → AttemptResult) (u : Nat → ℚ) :
    Nat → Nat → Option Resp → Option Exc → ExecTrace
  | 0, _attempt, lastResp, lastExc =>
    match lastResp with
    | some r => ⟨.ok r, 0, []⟩
    | none =>
      match lastExc with
      | some e => ⟨.raised e, 0, []⟩
      | none => ⟨.runtimeError, 0, []⟩
  | fuel + 1, attempt, lastResp, lastExc =>
    match f attempt with
    | .resp r =>
      if shouldRetry cfg attempt (some r) none then
        let t := executeLoop cfg f u fuel (attempt + 1) (some r) lastExc
        if attempt < cfg.max_retries then
          ⟨t.result, t.calls + 1,
            getBackoffTime cfg attempt (extractRetryAfter r) (u attempt) :: t.delays⟩
        else ⟨t.result, t.calls + 1, t.delays⟩
      else ⟨.ok r, 1, []⟩
    | .exc e =>
      if shouldRetry cfg attempt none (some e) then
        let t := executeLoop cfg f u fuel (attempt + 1) lastResp (some e)
        if attempt < cfg.max_retries then
          ⟨t.result, t.calls + 1, getBackoffTime cfg attempt none (u attempt) :: t.delays⟩
        else ⟨t.result, t.calls + 1, t.delays⟩
      else ⟨.raised e, 1, []⟩

/-- Entry point of `RetryHandler.execute` (rest_client/retry.py lines
114-191): the loop runs over `range(max_retries + 1)` starting with
`response = None`, `last_exception = None`. -/
def execute (cfg : RetryConfig) (f : Nat → AttemptResult) (u : Nat → ℚ) : ExecTrace :=
  executeLoop cfg f u (cfg.max_retries + 1) 0 none none

/-- Translation of the loop body of `RetryHandler.execute_async`
(rest_client/retry.py lines 209-270), which is textually identical to
`execute` except that the wait step is `await asyncio.sleep` instead of
`time.sleep`; in this embedding both record the delay in the trace. -/
def executeAsyncLoop (cfg : RetryConfig) (f : Nat → AttemptResult) (u : Nat → ℚ) :
    Nat → Nat → Option Resp → Option Exc → ExecTrace
  | 0, _attempt, lastResp, lastExc =>
    match lastResp with
    | some r => ⟨.ok r, 0, []⟩
    | none =>
      match lastExc with
      | some e => ⟨.raised e, 0, []⟩
      | none => ⟨.runtimeError, 0, []⟩
  | fuel + 1, attempt, lastResp, lastExc =>
    match f attempt with
    | .resp r =>
      if shouldRetry cfg attempt (some r) none then
        let t := executeAsyncLoop cfg f u fuel (attempt + 1) (some r) lastExc
        if attempt < cfg.max_retries then
          ⟨t.result, t.calls + 1,
            getBackoffTime cfg attempt (extractRetryAfter r) (u attempt) :: t.delays⟩
        else ⟨t.result, t.calls + 1, t.delays⟩
      else ⟨.ok r, 1, []⟩
    | .exc e =>
      if shouldRetry cfg attempt none (some e) then
        let t := executeAsyncLoop cfg f u fuel (attempt + 1) lastResp (some e)
        if attempt < cfg.max_retries then
          ⟨t.result, t.calls + 1, getBackoffTime cfg attempt none (u attempt) :: t.delays⟩
        else ⟨t.result, t.calls + 1, t.delays⟩
      else ⟨.raised e, 1, []⟩

/-- Entry point of `RetryHandler.execute_async` (rest_client/retry.py lines
193-270). -/
def executeAsync (cfg : RetryConfig) (f : Nat → AttemptResult) (u : Nat → ℚ) : ExecTrace :=
  executeAsyncLoop cfg f u (cfg.max_retries + 1) 0 none none

/-- The typed errors raised by `raise_for_status`
(rest_client/exceptions.py): `AuthenticationError` stores the response's
status code; `RateLimitError` stores the optional parsed Retry-After;
`HTTPError` stores the status code. There is no Server-specific class in
this module. -/
inductive RestError where
  | authenticationError (message : String) (status : Nat)
  | rateLimitError (message : String) (retry_after : Option Int)
  | httpError (message : String) (status : Nat)
deriving DecidableEq

/-- How a call of `raise_for_status` ends: it returns `None`, raises one of
the typed errors, or lets an uncaught `ValueError` from
`int(retry_after)` escape. -/
inductive RFSOutcome where
  | ok
  | raised (e : RestError)
  | valueErrorRaised
deriving DecidableEq

/-- Translation of the message construction of `raise_for_status`
(rest_client/exceptions.py lines 120-129): default `"<status> <reason>"`,
overridden by `error_data.get("message", error_data.get("error", message))`
when the body parses as a dict; any parse failure silently keeps the
default. -/
def rfsMessage (r : Resp) : String :=
  let message := toString r.status_code ++ " " ++ r.reason_phrase
  match r.body with
  | .dict m e =>
    match m with
    | some v => v
    | none =>
      match e with
      | some v => v
      | none => message
  | _ => message

/-- Translation of `raise_for_status` (rest_client/exceptions.py lines
105-138). Note the 429 branch (lines 133-136) computes
`int(retry_after) if retry_after else None` with no exception handler, so a
truthy but unparseable header makes a raw `ValueError` escape. `is_success`
is httpx's 2xx check. -/
def raiseForStatus (r : Resp) : RFSOutcome :=
  if 200 ≤ r.status_code ∧ r.status_code < 300 then .ok
  else
    let message := rfsMessage r
    if r.status_code == 401 ∨ r.status_code == 403 then
      .raised (.authenticationError message r.status_code)
    else if r.status_code == 429 then
      match r.headerGet ("Retry-After") with
      | some h =>
        if strFalsy h then .raised (.rateLimitError message none)
        else
          match pyInt? h with
          | some n => .raised (.rateLimitError message (some n))
          | none => .valueErrorRaised
      | none => .raised (.rateLimitError message none)
    else if 400 ≤ r.status_code then
      .raised (.httpError message r.status_code)
    else .ok

/-- The raw transport outcome of one `self.client.send(...)` call inside
`Client._send_request.make_request` (rest_client/client.py lines 201-218):
a response, one of the two httpx exceptions that `make_request` converts,
or any other exception, which propagates unconverted. -/
inductive RawAttempt where
  | resp (r : Resp)
  | connectError
  | readTimeout
  | otherError
deriving DecidableEq

/-- Translation of the `make_request` closure (rest_client/client.py lines
201-218): `httpx.ConnectError` is re-raised as the client library's
`ConnectionError` and `httpx.ReadTimeout` as its `TimeoutError`; everything
else passes through unchanged. -/
def makeRequestResult : RawAttempt → AttemptResult
  | .resp r => .resp r
  | .connectError => .exc .clientConnectionError
  | .readTimeout => .exc .clientTimeoutError
  | .otherError => .exc .otherExc

/-- How `Client._send_request` ends: a returned response, a propagated raw
exception, a typed error from `raise_for_status`, the uncaught `ValueError`
from its 429 branch, or the dead-code `RuntimeError` of the retry loop. -/
inductive SendOutcome where
  | ok (r : Resp)
  | excRaised (e : Exc)
  | recordRaised (e : RestError)
  | valueErrorRaised
  | runtimeError
deriving DecidableEq

/-- Boolean test used to state that a surfaced error is one of the typed
error records constructed by `raise_for_status` (as opposed to a raw
propagated exception). -/
def SendOutcome.isRecordRaised : SendOutcome → Bool
  | .recordRaised _ => true
  | _ => false

/-- Boolean test for a result of `execute` being a raised exception. -/
def ExecResult.isRaised : ExecResult → Bool
  | .raised _ => true
  | _ => false

/-- Translation of `Client._send_request` (rest_client/client.py lines
190-230) in the configuration where a retry handler exists: the retry
handler executes `make_request` (whose raw transport outcomes are `raw`),
then, when `raise_for_status_enabled`, the returned response goes through
`raise_for_status`. The trace records the surfaced outcome, the number of
transport attempts, and the sleeps. -/
def sendRequest (cfg : RetryConfig) (raw : Nat → RawAttempt) (u : Nat → ℚ)
    (raiseForStatusEnabled : Bool) : SendOutcome × Nat × List ℚ :=
  let t := execute cfg (fun n => makeRequestResult (raw n)) u
  match t.result with
  | .ok r =>
    if raiseForStatusEnabled then
      match raiseForStatus r with
      | .ok => (.ok r, t.calls, t.delays)
      | .raised e => (.recordRaised e, t.calls, t.delays)
      | .valueErrorRaised => (.valueErrorRaised, t.calls, t.delays)
    else (.ok r, t.calls, t.delays)
  | .raised e => (.excRaised e, t.calls, t.delays)
  | .runtimeError => (.runtimeError, t.calls, t.delays)

/-- Configuration from `gemini/client.py` lines 18-24 (`RetryConfig` of the
gemini variant, renamed here to avoid the clash). -/
structure GRetryConfig where
  max_attempts : Nat := 3
  base_delay : ℚ := 1
  max_delay : ℚ := 60
  jitter : Bool := true
  retry_codes : List Nat := [408, 429, 500, 502, 503, 504]
deriving DecidableEq

/-- Translation of `_calculate_backoff` (gemini/client.py lines 44-52).
`m` models the draw of `random.uniform(0.5, 1.5)`. Note that a provided
`retry_after` is returned as-is, with no clamping to `max_delay`. -/
def calculateBackoff (attempt : Nat) (config : GRetryConfig)
    (retry_after : Option ℚ) (m : ℚ) : ℚ :=
  match retry_after with
  | some ra => ra
  | none =>
    let delay := min config.max_delay (config.base_delay * 2 ^ attempt)
    if config.jitter then delay * m else delay

/-- Translation of `_BaseClient._get_retry_after` (gemini/client.py lines
97-104): falsy header yields `None`; `float(header)` with
`except ValueError` yields `None` on malformed values. -/
def gGetRetryAfter (r : Resp) : Option ℚ :=
  match r.headerGet ("Retry-After") with
  | none => none
  | some h => if strFalsy h then none else pyFloat? h

/-- Translation of `_BaseClient._should_retry` (gemini/client.py lines
94-95). -/
def gShouldRetry (cfg : GRetryConfig) (status_code : Nat) : Bool :=
  cfg.retry_codes.contains status_code

/-- The classified exception classes that `_map_exception`
(gemini/client.py lines 54-73) distinguishes: httpx timeout exceptions,
httpx network errors, an HTTP status error carrying its response, and
everything else (carrying its `str(e)`). -/
inductive GExcClass where
  | timeoutException
  | networkError
  | httpStatusError (r : Resp)
  | otherException (msg : String)
deriving DecidableEq

/-- The gemini error hierarchy (gemini/exceptions.py): HTTP-level errors
carry status, headers and body content; transport-level errors carry the
original exception. `RateLimitError` has no parsed retry-after field. -/
inductive GError where
  | timeoutError (message : String) (original : GExcClass)
  | connectionError (message : String) (original : GExcClass)
  | authenticationError (message : String) (status : Nat)
      (headers : List (String × String)) (content : String)
  | rateLimitError (message : String) (status : Nat)
      (headers : List (String × String)) (content : String)
  | serverError (message : String) (status : Nat)
      (headers : List (String × String)) (content : String)
  | httpError (message : String) (status : Nat)
      (headers : List (String × String)) (content : String)
  | clientError (message : String) (original : GExcClass)
deriving DecidableEq

/-- Translation of `_map_exception` (gemini/client.py lines 54-73). -/
def mapException : GExcClass → GError
  | .timeoutException => .timeoutError ("Request timed out") .timeoutException
  | .networkError => .connectionError ("Network error occurred") .networkError
  | .httpStatusError r =>
    let status := r.status_code
    let content := r.text
    let headers := r.headers
    if status == 401 ∨ status == 403 then
      .authenticationError ("Authentication failed") status headers content
    else if status == 429 then
      .rateLimitError ("Rate limit exceeded") status headers content
    else if 500 ≤ status ∧ status < 600 then
      .serverError ("Server error") status headers content
    else .httpError ("HTTP error") status headers content
  | .otherException msg =>
    .clientError (("Unexpected error: ") ++ msg) (.otherException msg)

/-- The raw outcome of one `self._client.request(...)` call inside
`Client._request` (gemini/client.py lines 129-164): a response (which then
goes through httpx `raise_for_status`), an `httpx.TimeoutException`, an
`httpx.NetworkError`, or any other exception. -/
inductive GAttempt where
  | resp (r : Resp)
  | timeoutException
  | networkError
  | otherException (msg : String)
deriving DecidableEq

/-- Model of httpx `response.is_success` (2xx), which decides whether
`response.raise_for_status()` raises an `httpx.HTTPStatusError`. -/
def gIsSuccess (r : Resp) : Bool :=
  decide (200 ≤ r.status_code) && decide (r.status_code < 300)

/-- How a call of the gemini `Client._request` ends. -/
inductive GReqResult where
  | ok (r : Resp)
  | raised (e : GError)
deriving DecidableEq

/-- Observable trace of one gemini `_request` call. -/
structure GTrace where
  result : GReqResult
  calls : Nat
  delays : List ℚ
deriving DecidableEq

/-- Translation of the `while True` loop of the gemini `Client._request`
(gemini/client.py lines 129-164). `g k` is the raw outcome of the `k`-th
transport call, `m k` the `random.uniform(0.5, 1.5)` draw at attempt `k`.
The Python short-circuit `attempt < max_attempts and self._should_retry(...)`
is expanded into nested conditionals. -/
def gRequestLoop (cfg : GRetryConfig) (g : Nat → GAttempt) (m : Nat → ℚ)
    (attempt : Nat) : GTrace :=
  match g attempt with
  | .resp r =>
    if gIsSuccess r then ⟨.ok r, 1, []⟩
    else
      if h : attempt < cfg.max_attempts then
        if gShouldRetry cfg r.status_code then
          let retry_after := gGetRetryAfter r
          let sleep_time := calculateBackoff attempt cfg retry_after (m attempt)
          let t := gRequestLoop cfg g m (attempt + 1)
          ⟨t.result, t.calls + 1, sleep_time :: t.delays⟩
        else ⟨.raised (mapException (.httpStatusError r)), 1, []⟩
      else ⟨.raised (mapException (.httpStatusError r)), 1, []⟩
  | .timeoutException =>
    if h : attempt < cfg.max_attempts then
      let sleep_time := calculateBackoff attempt cfg none (m attempt)
      let t := gRequestLoop cfg g m (attempt + 1)
      ⟨t.result, t.calls + 1, sleep_time :: t.delays⟩
    else ⟨.raised (mapException .timeoutException), 1, []⟩
  | .networkError =>
    if h : attempt < cfg.max_attempts then
      let sleep_time := calculateBackoff attempt cfg none (m attempt)
      let t := gRequestLoop cfg g m (attempt + 1)
      ⟨t.result, t.calls + 1, sleep_time :: t.delays⟩
    else ⟨.raised (mapException .networkError), 1, []⟩
  | .otherException msg => ⟨.raised (mapException (.otherException msg)), 1, []⟩
termination_by cfg.max_attempts - attempt
decreasing_by
  all_goals omega

/-- Entry point of the gemini `Client._request`: the loop starts at
`attempt = 0`. -/
def gRequest (cfg : GRetryConfig) (g : Nat → GAttempt) (m : Nat → ℚ) : GTrace :=
  gRequestLoop cfg g m 0

/-- Boolean version of the spec notion "retryable failing outcome" at
unlimited budget, induced by `should_retry`: a response whose status is in
the configured retry set, or one of the two retryable httpx exceptions. -/
def failingRetryableB (cfg : RetryConfig) : AttemptResult → Bool
  | .resp r => cfg.retry_status_codes.contains r.status_code
  | .exc e =>
    match e with
    | .httpxConnectError => true
    | .httpxReadTimeout => true
    | _ => false

/-- What `RetryHandler.execute` surfaces at the final attempt for a failing
outcome: the response is returned, the exception is raised. -/
def finalSurface : AttemptResult → ExecResult
  | .resp r => .ok r
  | .exc e => .raised e

/-- The retry-after value forwarded by the execute loops for an attempt
outcome: extracted from the response (only for status 429), never for an
exception. -/
def attemptRetryAfter : AttemptResult → Option Int
  | .resp r => extractRetryAfter r
  | .exc _ => none

/-- Backoff with the randomness removed, used to state jitter-independence. -/
def backoffNoJitter (cfg : RetryConfig) (attempt : Nat) (retry_after : Option Int) : ℚ :=
  match retry_after with
  | some ra => min (ra : ℚ) cfg.max_backoff
  | none => min (cfg.backoff_factor * 2 ^ attempt) cfg.max_backoff

/-- A plain 200 response. -/
def resp200 : Resp := { status_code := 200, reason_phrase := "OK" }

/-- A plain 500 response with unparseable body. -/
def resp500 : Resp := { status_code := 500, reason_phrase := "Internal Server Error" }

/-- A plain 404 response with unparseable body. -/
def resp404 : Resp := { status_code := 404, reason_phrase := "Not Found" }

/-- A 503 response carrying a numeric Retry-After header. -/
def resp503RA : Resp :=
  { status_code := 503, headers := [(("Retry-After"), ("7"))],
    reason_phrase := "Service Unavailable" }

/-- A 429 response carrying a numeric Retry-After header. -/
def resp429RA : Resp :=
  { status_code := 429, headers := [(("Retry-After"), ("7"))],
    reason_phrase := "Too Many Requests" }

/-- A 429 response whose Retry-After header is an HTTP-date, the format RFC
9110 allows; Python `int()` raises `ValueError` on it. -/
def resp429Date : Resp :=
  { status_code := 429,
    headers := [(("Retry-After"), ("Wed, 21 Oct 2015 07:28:00 GMT"))],
    reason_phrase := "Too Many Requests" }

/-- A 429 response with no Retry-After header. -/
def resp429NoRA : Resp := { status_code := 429, reason_phrase := "Too Many Requests" }

/-- A 429 response with a parseable Retry-After of 60 seconds. -/
def resp429RA60 : Resp :=
  { status_code := 429, headers := [(("Retry-After"), ("60"))],
    reason_phrase := "Too Many Requests" }

/-- A 500 response whose JSON body parses to a dict with a message field. -/
def resp500MsgBody : Resp :=
  { status_code := 500, reason_phrase := "Internal Server Error",
    body := .dict (some ("boom")) none }

/-- A 500 response whose JSON body parses to a non-dict value. -/
def resp500NotDict : Resp :=
  { status_code := 500, reason_phrase := "Internal Server Error", body := .notDict }

/-- Retry configuration with one total attempt (`max_retries = 0`). -/
def cfgR0 : RetryConfig := { max_retries := 0 }

/-- Retry configuration with `max_retries = 2` and jitter disabled. -/
def cfgNJ2 : RetryConfig := { max_retries := 2, jitter := false }

/-- Retry configuration with jitter disabled and unit backoff factor. -/
def cfgW10 : RetryConfig := { max_retries := 2, backoff_factor := 1, jitter := false }

/-- Retry configuration with `max_backoff = 30`. -/
def cfgMB30 : RetryConfig := { max_backoff := 30 }

/-- Retry configuration with `backoff_factor = 2` and jitter enabled
(defaults otherwise, as in the repository's jitter test). -/
def cfgJ2 : RetryConfig := { backoff_factor := 2, jitter := true }

/-- Gemini retry configuration with `max_delay = 30`. -/
def gcfg30 : GRetryConfig := { max_delay := 30 }

/-- Transport outcomes for the C3 scenario: a connect failure on the first
two calls, then a 200 response. -/
def rawC3 : Nat → RawAttempt := fun n => if n < 2 then .connectError else .resp resp200

/-- The same scenario fed to `RetryHandler.execute` directly as raw httpx
exceptions (bypassing the client's conversion wrapper). -/
def fC3direct : Nat → AttemptResult :=
  fun n => if n < 2 then .exc .httpxConnectError else .resp resp200

/-- An attempt function that always yields a retryable 500 response. -/
def fAll500 : Nat → AttemptResult := fun _ => .resp resp500

/-- An attempt function that always raises `httpx.ConnectError`. -/
def fAllConnect : Nat → AttemptResult := fun _ => .exc .httpxConnectError

/-- An attempt function: one retryable 500, then a 200 response. -/
def f500Then200 : Nat → AttemptResult :=
  fun n => if n < 1 then .resp resp500 else .resp resp200

/-- An attempt function: a 503 with a Retry-After header, then a 200. -/
def f503Then200 : Nat → AttemptResult :=
  fun n => if n < 1 then .resp resp503RA else .resp resp200

/-- An attempt function: a 429 with a Retry-After header, then a 200. -/
def f429Then200 : Nat → AttemptResult :=
  fun n => if n < 1 then .resp resp429RA else .resp resp200

/-- Default rest_client retry configuration (all defaults). -/
def cfgDefault : RetryConfig := {}

/-- Default gemini retry configuration (all defaults). -/
def gcfgD : GRetryConfig := {}

/-- Gemini retry configuration with jitter disabled. -/
def gcfgNJ : GRetryConfig := { jitter := false }

/-- Transport outcomes that always raise an uncategorised exception. -/
def rawOther : Nat → RawAttempt := fun _ => .otherError

/-- Gemini transport outcomes that always raise an uncategorised exception. -/
def gOther : Nat → GAttempt := fun _ => .otherException ("boom")

/-- Retrying implies remaining budget: `should_retry` returns `False`
whenever `attempt >= max_retries`. -/
theorem shouldRetry_lt_max {cfg : RetryConfig} {attempt : Nat} {re : Option Resp}
    {ex : Option Exc} (h : shouldRetry cfg attempt re ex = true) :
    attempt < cfg.max_retries := by
  unfold shouldRetry at h
  by_cases hc : cfg.max_retries ≤ attempt
  · simp [hc] at h
  · omega

/-- An exception outside the two retryable httpx classes is never retried. -/
theorem shouldRetry_otherExc (cfg : RetryConfig) (attempt : Nat) (re : Option Resp) :
    shouldRetry cfg attempt re (some .otherExc) = false := by
  unfold shouldRetry
  split <;> rfl

/-- The converted client connection error is not recognised by
`should_retry` (it is not an `httpx.ConnectError`). -/
theorem shouldRetry_clientConnection (cfg : RetryConfig) (attempt : Nat) (re : Option Resp) :
    shouldRetry cfg attempt re (some .clientConnectionError) = false := by
  unfold shouldRetry
  split <;> rfl

/-- With jitter disabled, `get_backoff_time` does not depend on the random
draw. -/
theorem getBackoffTime_noJitter {cfg : RetryConfig} (hj : cfg.jitter = false) :
    ∀ (a : Nat) (ra : Option Int) (u : ℚ),
      getBackoffTime cfg a ra u = backoffNoJitter cfg a ra := by
  intro a ra u
  unfold getBackoffTime backoffNoJitter
  cases ra <;> simp [hj]

/-- The blocking and suspending retry loops compute identical traces (the
two Python bodies differ only in the sleep primitive). -/
theorem executeLoop_eq_asyncLoop (cfg : RetryConfig) (f : Nat → AttemptResult)
    (u : Nat → ℚ) :
    ∀ fuel attempt lastResp lastExc,
      executeLoop cfg f u fuel attempt lastResp lastExc =
        executeAsyncLoop cfg f u fuel attempt lastResp lastExc := by
  intro fuel
  induction fuel with
  | zero =>
    intro attempt lr le
    cases lr <;> cases le <;> rfl
  | succ n ih =>
    intro attempt lr le
    simp only [executeLoop, executeAsyncLoop, ih]

/-- With jitter disabled, the execute loop does not depend on the random
stream. -/
theorem executeLoop_u_irrel (cfg : RetryConfig) (f : Nat → AttemptResult)
    (u1 u2 : Nat → ℚ) (hj : cfg.jitter = false) :
    ∀ fuel attempt lastResp lastExc,
      executeLoop cfg f u1 fuel attempt lastResp lastExc =
        executeLoop cfg f u2 fuel attempt lastResp lastExc := by
  intro fuel
  induction fuel with
  | zero =>
    intro attempt lr le
    rfl
  | succ n ih =>
    intro attempt lr le
    simp only [executeLoop, ih, getBackoffTime_noJitter hj]

/-- A response whose status is in the retry set is retried while budget
remains. -/
theorem shouldRetry_resp_true {cfg : RetryConfig} {attempt : Nat} {r : Resp}
    (hlt : attempt < cfg.max_retries)
    (hc : cfg.retry_status_codes.contains r.status_code = true) :
    shouldRetry cfg attempt (some r) none = true := by
  unfold shouldRetry
  rw [if_neg (by omega)]
  exact hc

/-- A response whose status is not in the retry set is never retried. -/
theorem shouldRetry_resp_false {cfg : RetryConfig} {attempt : Nat} {r : Resp}
    (hc : cfg.retry_status_codes.contains r.status_code = false) :
    shouldRetry cfg attempt (some r) none = false := by
  unfold shouldRetry
  split
  · rfl
  · exact hc

/-- A retryable-class exception is retried while budget remains. -/
theorem shouldRetry_exc_true {cfg : RetryConfig} {attempt : Nat} {e : Exc}
    (hlt : attempt < cfg.max_retries)
    (he : e = .httpxConnectError ∨ e = .httpxReadTimeout) :
    shouldRetry cfg attempt none (some e) = true := by
  unfold shouldRetry
  rw [if_neg (by omega)]
  rcases he with h | h <;> rw [h]

/-- Nothing at all is retried once the budget is exhausted. -/
theorem shouldRetry_budget_false {cfg : RetryConfig} {attempt : Nat}
    {re : Option Resp} {ex : Option Exc} (h : cfg.max_retries ≤ attempt) :
    shouldRetry cfg attempt re ex = false := by
  unfold shouldRetry
  rw [if_pos h]

/-- When every call yields a retryable failing outcome, the loop runs the
whole budget down and surfaces exactly the final outcome: returned if it is
a response, raised if it is an exception. -/
theorem executeLoop_exhaust (cfg : RetryConfig) (f : Nat → AttemptResult) (u : Nat → ℚ)
    (hall : ∀ k, failingRetryableB cfg (f k) = true) :
    ∀ k attempt lastResp lastExc, attempt + k = cfg.max_retries →
      (executeLoop cfg f u (k + 1) attempt lastResp lastExc).result =
          finalSurface (f cfg.max_retries) ∧
        (executeLoop cfg f u (k + 1) attempt lastResp lastExc).calls = k + 1 := by
  intro k
  induction k with
  | zero =>
    intro attempt lr le h0
    have ha : attempt = cfg.max_retries := by omega
    cases hf : f attempt with
    | resp r =>
      rw [executeLoop.eq_4, hf]
      simp only []
      rw [shouldRetry_budget_false (by omega)]
      subst ha
      simp [finalSurface, hf]
    | exc e =>
      rw [executeLoop.eq_4, hf]
      simp only []
      rw [shouldRetry_budget_false (by omega)]
      subst ha
      simp [finalSurface, hf]
  | succ n ih =>
    intro attempt lr le h0
    have hlt : attempt < cfg.max_retries := by omega
    cases hf : f attempt with
    | resp r =>
      have hfail := hall attempt
      rw [hf] at hfail
      obtain ⟨ih1, ih2⟩ := ih (attempt + 1) (some r) le (by omega)
      rw [executeLoop.eq_4, hf]
      simp only []
      rw [shouldRetry_resp_true hlt (by simpa [failingRetryableB] using hfail)]
      simp [hlt, ih1, ih2]
    | exc e =>
      have hfail := hall attempt
      rw [hf] at hfail
      have he : e = .httpxConnectError ∨ e = .httpxReadTimeout := by
        cases e <;> simp_all [failingRetryableB]
      obtain ⟨ih1, ih2⟩ := ih (attempt + 1) lr (some e) (by omega)
      rw [executeLoop.eq_4, hf]
      simp only []
      rw [shouldRetry_exc_true hlt he]
      simp [hlt, ih1, ih2]

/-- When the first `k` calls yield retryable failing outcomes and the
`k`-th call (within budget) yields a response outside the retry set, the
loop returns that response after exactly `k + 1` calls. -/
theorem executeLoop_first_ok (cfg : RetryConfig) (f : Nat → AttemptResult) (u : Nat → ℚ) :
    ∀ k fuel attempt lastResp lastExc (r : Resp),
      k < fuel →
      attempt + k ≤ cfg.max_retries →
      (∀ j, j < k → failingRetryableB cfg (f (attempt + j)) = true) →
      f (attempt + k) = .resp r →
      cfg.retry_status_codes.contains r.status_code = false →
      (executeLoop cfg f u fuel attempt lastResp lastExc).result = .ok r ∧
        (executeLoop cfg f u fuel attempt lastResp lastExc).calls = k + 1 := by
  intro k
  induction k with
  | zero =>
    intro fuel attempt lr le r hkf hbud hpre hfk hcode
    obtain ⟨fuel', rfl⟩ : ∃ x, fuel = x + 1 := ⟨fuel - 1, by omega⟩
    rw [Nat.add_zero] at hfk
    rw [executeLoop.eq_4, hfk]
    simp only []
    rw [shouldRetry_resp_false hcode]
    simp
  | succ n ihk =>
    intro fuel attempt lr le r hkf hbud hpre hfk hcode
    obtain ⟨fuel', rfl⟩ : ∃ x, fuel = x + 1 := ⟨fuel - 1, by omega⟩
    have hlt : attempt < cfg.max_retries := by omega
    have hfa := hpre 0 (by omega)
    rw [Nat.add_zero] at hfa
    cases hf : f attempt with
    | resp r0 =>
      rw [hf] at hfa
      obtain ⟨ih1, ih2⟩ :=
        ihk fuel' (attempt + 1) (some r0) le r (by omega) (by omega)
          (fun j hj => by
            have := hpre (j + 1) (by omega)
            rwa [show attempt + (j + 1) = attempt + 1 + j by omega] at this)
          (by rwa [show attempt + 1 + n = attempt + (n + 1) by omega]) hcode
      rw [executeLoop.eq_4, hf]
      simp only []
      rw [shouldRetry_resp_true hlt (by simpa [failingRetryableB] using hfa)]
      simp [hlt, ih1, ih2]
    | exc e =>
      rw [hf] at hfa
      have he : e = .httpxConnectError ∨ e = .httpxReadTimeout := by
        cases e <;> simp_all [failingRetryableB]
      obtain ⟨ih1, ih2⟩ :=
        ihk fuel' (attempt + 1) lr (some e) r (by omega) (by omega)
          (fun j hj => by
            have := hpre (j + 1) (by omega)
            rwa [show attempt + (j + 1) = attempt + 1 + j by omega] at this)
          (by rwa [show attempt + 1 + n = attempt + (n + 1) by omega]) hcode
      rw [executeLoop.eq_4, hf]
      simp only []
      rw [shouldRetry_exc_true hlt he]
      simp [hlt, ih1, ih2]

/-- Every recorded delay is the backoff computed for its own attempt, with
the retry-after value extracted from that attempt's outcome (responses only,
status 429 only). -/
theorem executeLoop_delay_spec (cfg : RetryConfig) (f : Nat → AttemptResult) (u : Nat → ℚ) :
    ∀ fuel attempt lastResp lastExc i,
      i < (executeLoop cfg f u fuel attempt lastResp lastExc).delays.length →
      (executeLoop cfg f u fuel attempt lastResp lastExc).delays.getD i 0 =
        getBackoffTime cfg (attempt + i) (attemptRetryAfter (f (attempt + i)))
          (u (attempt + i)) := by
  intro fuel
  induction fuel with
  | zero =>
    intro attempt lr le i hi
    exfalso
    cases lr <;> cases le <;> simp [executeLoop] at hi
  | succ n ih =>
    intro attempt lr le i hi
    cases hf : f attempt with
    | resp r =>
      rw [executeLoop.eq_4, hf] at hi ⊢
      simp only [] at hi ⊢
      by_cases hsr : shouldRetry cfg attempt (some r) none = true
      · have hlt := shouldRetry_lt_max hsr
        rw [hsr] at hi ⊢
        simp only [if_true, hlt, if_pos] at hi ⊢
        cases i with
        | zero =>
          simp [attemptRetryAfter, hf]
        | succ j =>
          simp only [List.getD_cons_succ]
          simp only [List.length_cons, Nat.add_lt_add_iff_right] at hi
          rw [ih (attempt + 1) (some r) le j hi,
            show attempt + (j + 1) = attempt + 1 + j by omega]
      · rw [Bool.not_eq_true] at hsr
        rw [hsr] at hi
        simp at hi
    | exc e =>
      rw [executeLoop.eq_4, hf] at hi ⊢
      simp only [] at hi ⊢
      by_cases hsr : shouldRetry cfg attempt none (some e) = true
      · have hlt := shouldRetry_lt_max hsr
        rw [hsr] at hi ⊢
        simp only [if_true, hlt, if_pos] at hi ⊢
        cases i with
        | zero =>
          simp [attemptRetryAfter, hf]
        | succ j =>
          simp only [List.getD_cons_succ]
          simp only [List.length_cons, Nat.add_lt_add_iff_right] at hi
          rw [ih (attempt + 1) lr (some e) j hi,
            show attempt + (j + 1) = attempt + 1 + j by omega]
      · rw [Bool.not_eq_true] at hsr
        rw [hsr] at hi
        simp at hi

/-- C1 (amended): for every `maxAttempts = n ≥ 0` and an attempt function
whose every call produces a retryable failing outcome, `RetryHandler.execute`
calls it exactly `n + 1` times and surfaces the final outcome only — raising
it when the final outcome is an exception, but returning the final failing
response when it is a response (the client layer then raises via
`raise_for_status`); no intermediate outcome is ever surfaced. When a prefix
of retryable failing outcomes is followed, within budget, by a response
outside the retry set, that first such response is returned. -/
theorem c1_retry_exhaustion_and_first_success (cfg : RetryConfig)
    (f : Nat → AttemptResult) (u : Nat → ℚ) :
    ((∀ k, failingRetryableB cfg (f k) = true) →
      (execute cfg f u).calls = cfg.max_retries + 1 ∧
        (execute cfg f u).result = finalSurface (f cfg.max_retries)) ∧
    (∀ k r, k ≤ cfg.max_retries →
      (∀ j, j < k → failingRetryableB cfg (f j) = true) →
      f k = .resp r →
      cfg.retry_status_codes.contains r.status_code = false →
      (execute cfg f u).result = .ok r ∧ (execute cfg f u).calls = k + 1) := by
  constructor
  · intro hall
    obtain ⟨h1, h2⟩ :=
      executeLoop_exhaust cfg f u hall cfg.max_retries 0 none none (by omega)
    exact ⟨h2, h1⟩
  · intro k r hk hpre hfk hcode
    exact executeLoop_first_ok cfg f u k (cfg.max_retries + 1) 0 none none r
      (by omega) (by omega) (fun j hj => by simpa using hpre j hj)
      (by simpa using hfk) hcode

/-- C1 counterexample: with `max_retries = 0` and an attempt function that
always yields a retryable failing 500 response, `execute` does not raise; it
returns the failing response after its single call. -/
theorem c1_counterexample :
    execute cfgR0 fAll500 (fun _ => 0) = ⟨.ok resp500, 1, []⟩ ∧
    (execute cfgR0 fAll500 (fun _ => 0)).result.isRaised = false := by
  constructor
  · rfl
  · rfl

/-- C1 witness: exhaustion with connect errors raises the final exception
after 3 calls at `max_retries = 2`; one failing 500 followed by a 200
returns the 200 after 2 calls. -/
theorem c1_witness :
    ((execute cfgNJ2 fAllConnect (fun _ => 0)).calls = 3 ∧
      (execute cfgNJ2 fAllConnect (fun _ => 0)).result = .raised .httpxConnectError) ∧
    ((execute cfgNJ2 f500Then200 (fun _ => 0)).result = .ok resp200 ∧
      (execute cfgNJ2 f500Then200 (fun _ => 0)).calls = 2) := by
  constructor
  · exact (c1_retry_exhaustion_and_first_success cfgNJ2 fAllConnect (fun _ => 0)).1
      (fun k => rfl)
  · exact (c1_retry_exhaustion_and_first_success cfgNJ2 f500Then200 (fun _ => 0)).2
      1 resp200 (by decide) (by decide) rfl (by decide)

/-- C9: the blocking executor `RetryHandler.execute` and the cooperative
executor `RetryHandler.execute_async` have identical decision semantics:
with the same random stream the whole traces (result, number of attempts,
delays) coincide, and with jitter disabled they coincide for any two random
streams, so the delays agree as well. -/
theorem c9_sync_async_identical (cfg : RetryConfig) (f : Nat → AttemptResult)
    (u u1 u2 : Nat → ℚ) :
    execute cfg f u = executeAsync cfg f u ∧
    (cfg.jitter = false → execute cfg f u1 = executeAsync cfg f u2) := by
  constructor
  · exact executeLoop_eq_asyncLoop cfg f u (cfg.max_retries + 1) 0 none none
  · intro hj
    unfold execute executeAsync
    rw [executeLoop_u_irrel cfg f u1 u2 hj]
    exact executeLoop_eq_asyncLoop cfg f u2 (cfg.max_retries + 1) 0 none none

/-- C9 witness: concrete jitter-disabled configuration, same trace for the
two executors under different random streams. -/
theorem c9_witness :
    execute cfgNJ2 f500Then200 (fun _ => 0) =
      executeAsync cfgNJ2 f500Then200 (fun _ => 1/3) := by
  exact (c9_sync_async_identical cfgNJ2 f500Then200 (fun _ => 0) (fun _ => 0)
    (fun _ => 1/3)).2 rfl

/-- C10: in both `execute` and `execute_async` the Retry-After header is
forwarded to the backoff computation only for status 429: a retried response
with any other status produces the computed backoff with no retry-after (its
header is ignored), while a retried 429 with a truthy parseable header
produces `min(retryAfter, maxBackoff)`. -/
theorem c10_retry_after_only_for_429 (cfg : RetryConfig) (f : Nat → AttemptResult)
    (u : Nat → ℚ) (i : Nat) (r : Resp) (h : String) (v : Int) :
    (f i = .resp r → r.status_code ≠ 429 →
      i < (execute cfg f u).delays.length →
      (execute cfg f u).delays.getD i 0 = getBackoffTime cfg i none (u i)) ∧
    (f i = .resp r → r.status_code = 429 →
      r.headerGet ("Retry-After") = some h → strFalsy h = false → pyInt? h = some v →
      i < (execute cfg f u).delays.length →
      (execute cfg f u).delays.getD i 0 = min (v : ℚ) cfg.max_backoff) ∧
    (f i = .resp r → r.status_code ≠ 429 →
      i < (executeAsync cfg f u).delays.length →
      (executeAsync cfg f u).delays.getD i 0 = getBackoffTime cfg i none (u i)) ∧
    (f i = .resp r → r.status_code = 429 →
      r.headerGet ("Retry-After") = some h → strFalsy h = false → pyInt? h = some v →
      i < (executeAsync cfg f u).delays.length →
      (executeAsync cfg f u).delays.getD i 0 = min (v : ℚ) cfg.max_backoff) := by
  have hEq : execute cfg f u = executeAsync cfg f u :=
    executeLoop_eq_asyncLoop cfg f u (cfg.max_retries + 1) 0 none none
  have hA : f i = .resp r → r.status_code ≠ 429 →
      i < (execute cfg f u).delays.length →
      (execute cfg f u).delays.getD i 0 = getBackoffTime cfg i none (u i) := by
    intro hf hne hi
    unfold execute
    rw [executeLoop_delay_spec cfg f u (cfg.max_retries + 1) 0 none none i hi]
    rw [Nat.zero_add, hf]
    simp [attemptRetryAfter, extractRetryAfter, hne]
  have hB : f i = .resp r → r.status_code = 429 →
      r.headerGet ("Retry-After") = some h → strFalsy h = false → pyInt? h = some v →
      i < (execute cfg f u).delays.length →
      (execute cfg f u).delays.getD i 0 = min (v : ℚ) cfg.max_backoff := by
    intro hf h429 hh hhe hv hi
    unfold execute
    rw [executeLoop_delay_spec cfg f u (cfg.max_retries + 1) 0 none none i hi]
    rw [Nat.zero_add, hf]
    simp [attemptRetryAfter, extractRetryAfter, h429, hh, hhe, hv, getBackoffTime]
  refine ⟨hA, hB, ?_, ?_⟩
  · rw [← hEq]
    exact hA
  · rw [← hEq]
    exact hB

/-- C10 witness: a retried 503 carrying a Retry-After header sleeps the
computed backoff (header ignored), a retried 429 with the same header sleeps
the clamped header value. -/
theorem c10_witness :
    (execute cfgW10 f503Then200 (fun _ => 0)).delays.getD 0 0 =
      getBackoffTime cfgW10 0 none 0 ∧
    (execute cfgW10 f429Then200 (fun _ => 0)).delays.getD 0 0 =
      min (7 : ℚ) cfgW10.max_backoff := by
  constructor
  · exact (c10_retry_after_only_for_429 cfgW10 f503Then200 (fun _ => 0) 0 resp503RA
      ("7") 7).1 rfl (by decide) (by decide)
  · exact (c10_retry_after_only_for_429 cfgW10 f429Then200 (fun _ => 0) 0 resp429RA
      ("7") 7).2.1 rfl rfl (by decide) (by decide) (by decide) (by decide)

/-- C2 (amended): in `RetryConfig.get_backoff_time` a provided Retry-After
value takes absolute precedence and is clamped, `min(retryAfter, maxBackoff)`,
independent of the jitter flag, the random draw and the backoff factor, and a
malformed header (parsed to `None` by the caller's `try/except`) falls back to
the computed exponential backoff; the gemini `_calculate_backoff`, by
contrast, returns a provided `retry_after` unclamped. -/
theorem c2_retry_after_precedence (cfg : RetryConfig) (gcfg : GRetryConfig)
    (a : Nat) (ra : Int) (q u m : ℚ) (h : String) :
    getBackoffTime cfg a (some ra) u = min (ra : ℚ) cfg.max_backoff ∧
    calculateBackoff a gcfg (some q) m = q ∧
    (pyInt? h = none → cfg.jitter = false →
      getBackoffTime cfg a (pyInt? h) u =
        min (cfg.backoff_factor * 2 ^ a) cfg.max_backoff) := by
  refine ⟨rfl, rfl, ?_⟩
  intro hn hj
  rw [hn]
  simp [getBackoffTime, hj]

/-- C2 counterexample: the gemini `_calculate_backoff` with `Retry-After`
value 60 and `max_delay = 30` returns 60, not the clamped
`min(60, 30) = 30` the claim asserts. -/
theorem c2_counterexample :
    calculateBackoff 1 gcfg30 (some 60) 1 = 60 ∧
    min (60 : ℚ) gcfg30.max_delay = 30 ∧
    calculateBackoff 1 gcfg30 (some 60) 1 ≠ min (60 : ℚ) gcfg30.max_delay := by
  refine ⟨rfl, by decide, by decide⟩

/-- C2 witness: with `max_backoff = 30` the rest_client backoff for
`Retry-After: 60` is the clamp, which is 30, and a malformed header falls
back to the exponential form. -/
theorem c2_witness :
    getBackoffTime cfgMB30 2 (some 60) (1/3) = min (60 : ℚ) cfgMB30.max_backoff ∧
    min (60 : ℚ) cfgMB30.max_backoff = 30 ∧
    getBackoffTime cfgNJ2 1 (pyInt? ("oops")) 0 =
      min (cfgNJ2.backoff_factor * 2 ^ 1) cfgNJ2.max_backoff := by
  refine ⟨(c2_retry_after_precedence cfgMB30 gcfgD 2 60 0 (1/3) 0 ("x")).1, by decide,
    (c2_retry_after_precedence cfgNJ2 gcfgD 1 60 0 0 0 ("oops")).2.2 (by decide) rfl⟩

/-- C7: with jitter disabled and no Retry-After value, both implementations
compute exactly `min(maxBackoff, backoffFactor * 2 ^ attempt)`. -/
theorem c7_no_jitter_exponential (cfg : RetryConfig) (gcfg : GRetryConfig)
    (a : Nat) (u m : ℚ) :
    (cfg.jitter = false →
      getBackoffTime cfg a none u = min cfg.max_backoff (cfg.backoff_factor * 2 ^ a)) ∧
    (gcfg.jitter = false →
      calculateBackoff a gcfg none m = min gcfg.max_delay (gcfg.base_delay * 2 ^ a)) := by
  constructor
  · intro hj
    simp [getBackoffTime, hj, min_comm]
  · intro hj
    simp [calculateBackoff, hj]

/-- C7 witness: concrete jitter-disabled configurations for both
implementations. -/
theorem c7_witness :
    getBackoffTime cfgNJ2 3 none 0 =
      min cfgNJ2.max_backoff (cfgNJ2.backoff_factor * 2 ^ 3) ∧
    calculateBackoff 2 gcfgNJ none 0 =
      min gcfgNJ.max_delay (gcfgNJ.base_delay * 2 ^ 2) := by
  exact ⟨(c7_no_jitter_exponential cfgNJ2 gcfgD 3 0 0).1 rfl,
    (c7_no_jitter_exponential cfgNJ2 gcfgNJ 2 0 0).2 rfl⟩

/-- C8: with jitter enabled the multiplier is applied to the already-clamped
delay (clamp first, jitter second), so the result lies in
`[d/2, 3d/2]` for `d = min(backoffFactor * 2^attempt, maxBackoff)`: in
rest_client the multiplier is `0.5 + random()` with the draw in `[0, 1)`, in
gemini it is `uniform(0.5, 1.5)`; in particular with `backoffFactor = 2`,
`maxBackoff = 60` and `attempt = 1` the result lies in `[2, 6]`. -/
theorem c8_jitter_applied_to_clamped (cfg : RetryConfig) (gcfg : GRetryConfig)
    (a : Nat) (u m : ℚ) :
    (cfg.jitter = true → 0 ≤ cfg.backoff_factor → 0 ≤ cfg.max_backoff →
      0 ≤ u → u < 1 →
      (1/2) * min (cfg.backoff_factor * 2 ^ a) cfg.max_backoff ≤
          getBackoffTime cfg a none u ∧
        getBackoffTime cfg a none u ≤
          (3/2) * min (cfg.backoff_factor * 2 ^ a) cfg.max_backoff) ∧
    (gcfg.jitter = true → 0 ≤ gcfg.base_delay → 0 ≤ gcfg.max_delay →
      (1/2 : ℚ) ≤ m → m ≤ 3/2 →
      (1/2) * min gcfg.max_delay (gcfg.base_delay * 2 ^ a) ≤
          calculateBackoff a gcfg none m ∧
        calculateBackoff a gcfg none m ≤
          (3/2) * min gcfg.max_delay (gcfg.base_delay * 2 ^ a)) ∧
    (cfg.jitter = true → cfg.backoff_factor = 2 → cfg.max_backoff = 60 →
      0 ≤ u → u < 1 →
      2 ≤ getBackoffTime cfg 1 none u ∧ getBackoffTime cfg 1 none u ≤ 6) := by
  refine ⟨?_, ?_, ?_⟩
  · intro hj hf hmx hu0 hu1
    have hd : (0 : ℚ) ≤ min (cfg.backoff_factor * 2 ^ a) cfg.max_backoff :=
      le_min (mul_nonneg hf (by positivity)) hmx
    simp only [getBackoffTime, hj, if_true]
    constructor
    · nlinarith [mul_nonneg hd hu0]
    · nlinarith [mul_nonneg hd (by linarith : (0 : ℚ) ≤ 1 - u)]
  · intro hj hb hmx hm0 hm1
    have hd : (0 : ℚ) ≤ min gcfg.max_delay (gcfg.base_delay * 2 ^ a) :=
      le_min hmx (mul_nonneg hb (by positivity))
    simp only [calculateBackoff, hj, if_true]
    constructor
    · nlinarith [mul_nonneg hd (by linarith : (0 : ℚ) ≤ m - 1/2)]
    · nlinarith [mul_nonneg hd (by linarith : (0 : ℚ) ≤ 3/2 - m)]
  · intro hj hf2 hm60 hu0 hu1
    simp only [getBackoffTime, hj, hf2, hm60, if_true]
    have h4 : min ((2 : ℚ) * 2 ^ 1) 60 = 4 := by
      rw [show (2 : ℚ) * 2 ^ 1 = 4 by norm_num, min_eq_left (by norm_num)]
    rw [h4]
    constructor <;> nlinarith

/-- C8 witness: the particular scenario with `backoffFactor = 2`,
`attempt = 1`, a concrete draw. -/
theorem c8_witness :
    2 ≤ getBackoffTime cfgJ2 1 none 0 ∧ getBackoffTime cfgJ2 1 none 0 ≤ 6 := by
  exact (c8_jitter_applied_to_clamped cfgJ2 gcfgD 1 0 1).2.2 rfl rfl rfl
    (by decide) (by decide)

/-- C4 (amended): an attempt function whose first call raises an
uncategorised exception terminates both executors after exactly 1 call with
no retry and no sleep. The gemini `Client._request` raises a generic
`ClientError` with message `"Unexpected error: ..."` retaining the original
exception as `original_error`; the rest_client path, by contrast, re-raises
the original exception unmapped (no Generic wrapper exists in that path). -/
theorem c4_other_exception_no_retry (cfg : RetryConfig) (gcfg : GRetryConfig)
    (graw : Nat → RawAttempt) (g : Nat → GAttempt) (u m : Nat → ℚ) (msg : String) :
    (graw 0 = .otherError →
      sendRequest cfg graw u true = (.excRaised .otherExc, 1, [])) ∧
    (g 0 = .otherException msg →
      gRequest gcfg g m =
        ⟨.raised (.clientError (("Unexpected error: ") ++ msg) (.otherException msg)),
          1, []⟩) := by
  constructor
  · intro h0
    have ht : execute cfg (fun n => makeRequestResult (graw n)) u =
        ⟨.raised .otherExc, 1, []⟩ := by
      unfold execute
      rw [executeLoop.eq_4]
      simp [h0, makeRequestResult, shouldRetry_otherExc]
    unfold sendRequest
    rw [ht]
  · intro h0
    unfold gRequest
    rw [gRequestLoop]
    simp [h0, mapException]

/-- C4 counterexample: on the rest_client path the surfaced error for an
uncategorised exception is the original exception itself, not one of the
typed error records — no Generic record is constructed. -/
theorem c4_counterexample :
    sendRequest cfgDefault rawOther (fun _ => 0) true = (.excRaised .otherExc, 1, []) ∧
    SendOutcome.isRecordRaised (sendRequest cfgDefault rawOther (fun _ => 0) true).1 =
      false := by
  exact ⟨rfl, rfl⟩

/-- C4 witness: concrete instances of both conjuncts. -/
theorem c4_witness :
    sendRequest cfgNJ2 rawOther (fun _ => 0) true = (.excRaised .otherExc, 1, []) ∧
    gRequest gcfgD gOther (fun _ => 1) =
      ⟨.raised (.clientError (("Unexpected error: ") ++ ("boom")) (.otherException ("boom"))),
        1, []⟩ := by
  exact ⟨(c4_other_exception_no_retry cfgNJ2 gcfgD rawOther gOther (fun _ => 0)
      (fun _ => 1) ("boom")).1 rfl,
    (c4_other_exception_no_retry cfgNJ2 gcfgD rawOther gOther (fun _ => 0)
      (fun _ => 1) ("boom")).2 rfl⟩

/-- C5 (amended): `raise_for_status` classifies 401/403 as
`AuthenticationError`, 429 as `RateLimitError` carrying the parsed
Retry-After, and every other status `>= 400` — the 5xx range included — as a
plain `HTTPError` (there is no Server kind in that module); the gemini
`_map_exception` classifies, in precedence order, 401/403 as
`AuthenticationError`, 429 as `RateLimitError` carrying the raw headers and
body (no parsed retry-after field), 500-599 as `ServerError` and every other
failing status as `HTTPError`. -/
theorem c5_status_classification (r s : Resp) (h : String) (v : Int) :
    ((r.status_code = 401 ∨ r.status_code = 403) →
      raiseForStatus r = .raised (.authenticationError (rfsMessage r) r.status_code)) ∧
    (r.status_code = 429 → r.headerGet ("Retry-After") = none →
      raiseForStatus r = .raised (.rateLimitError (rfsMessage r) none)) ∧
    (r.status_code = 429 → r.headerGet ("Retry-After") = some h → strFalsy h = false →
      pyInt? h = some v →
      raiseForStatus r = .raised (.rateLimitError (rfsMessage r) (some v))) ∧
    (400 ≤ r.status_code → r.status_code ≠ 401 → r.status_code ≠ 403 →
      r.status_code ≠ 429 →
      raiseForStatus r = .raised (.httpError (rfsMessage r) r.status_code)) ∧
    ((s.status_code = 401 ∨ s.status_code = 403) →
      mapException (.httpStatusError s) =
        .authenticationError (("Authentication failed")) s.status_code s.headers s.text) ∧
    (s.status_code = 429 →
      mapException (.httpStatusError s) =
        .rateLimitError (("Rate limit exceeded")) s.status_code s.headers s.text) ∧
    (500 ≤ s.status_code → s.status_code < 600 →
      mapException (.httpStatusError s) =
        .serverError (("Server error")) s.status_code s.headers s.text) ∧
    (s.status_code ≠ 401 → s.status_code ≠ 403 → s.status_code ≠ 429 →
      ¬(500 ≤ s.status_code ∧ s.status_code < 600) →
      mapException (.httpStatusError s) =
        .httpError (("HTTP error")) s.status_code s.headers s.text) := by
  refine ⟨?_, ?_, ?_, ?_, ?_, ?_, ?_, ?_⟩
  · intro h14
    rcases h14 with h1 | h1 <;> simp [raiseForStatus, h1]
  · intro h429 hnone
    simp [raiseForStatus, h429, hnone]
  · intro h429 hh hhe hv
    simp [raiseForStatus, h429, hh, hhe, hv]
  · intro h400 h1 h3 h9
    have hns : ¬(200 ≤ r.status_code ∧ r.status_code < 300) := by omega
    simp [raiseForStatus, hns, beq_iff_eq, h1, h3, h9, h400]
  · intro h14
    rcases h14 with h1 | h1 <;> simp [mapException, h1]
  · intro h429
    simp [mapException, h429]
  · intro h5 h6
    have h1 : s.status_code ≠ 401 := by omega
    have h3 : s.status_code ≠ 403 := by omega
    have h9 : s.status_code ≠ 429 := by omega
    simp [mapException, beq_iff_eq, h1, h3, h9, h5, h6]
  · intro h1 h3 h9 hno
    simp [mapException, beq_iff_eq, h1, h3, h9, hno]

/-- C5 counterexample: `raise_for_status` gives a 500 the same
classification as a 404 — both raise plain `HTTPError`; no Server kind
exists in the rest_client hierarchy. The gemini `RateLimitError` payload is
the raw header list and body text, with no parsed retry-after value. -/
theorem c5_counterexample :
    raiseForStatus resp500 = .raised (.httpError (("500 Internal Server Error")) 500) ∧
    raiseForStatus resp404 = .raised (.httpError (("404 Not Found")) 404) ∧
    mapException (.httpStatusError resp429RA60) =
      .rateLimitError (("Rate limit exceeded")) 429 resp429RA60.headers
        resp429RA60.text := by
  exact ⟨rfl, rfl, rfl⟩

/-- C5 witness: concrete instances across the amended table. -/
theorem c5_witness :
    raiseForStatus ({ status_code := 401, reason_phrase := ("Unauthorized") }) =
      .raised (.authenticationError
        (rfsMessage ({ status_code := 401, reason_phrase := ("Unauthorized") })) 401) ∧
    raiseForStatus resp429RA60 =
      .raised (.rateLimitError (rfsMessage resp429RA60) (some 60)) ∧
    mapException (.httpStatusError resp503RA) =
      .serverError (("Server error")) resp503RA.status_code resp503RA.headers
        resp503RA.text := by
  refine ⟨?_, ?_, ?_⟩
  · exact (c5_status_classification
      ({ status_code := 401, reason_phrase := ("Unauthorized") }) resp503RA ("60") 60).1
      (Or.inl rfl)
  · exact (c5_status_classification resp429RA60 resp503RA ("60") 60).2.2.1 rfl
      (by decide) (by decide) (by decide)
  · exact (c5_status_classification resp429RA60 resp503RA ("60") 60).2.2.2.2.2.2.1
      (by decide) (by decide)

/-- C6: error-record construction from `raise_for_status` evaluated at the
decisive inputs. A 429 whose Retry-After header is an HTTP-date (a value RFC
9110 permits) makes the raw `ValueError` from `int(...)` escape — the
construction is not total, contradicting the spec's "absent/unparseable →
none" (the repository's two other parse sites and the spec agree on
`try/except → None`, so the missing handler here is a slip). An absent
header yields `retry_after = none`, a parseable one the parsed value, and an
unparseable or non-dict JSON body silently falls back to the default
`"<status> <reason>"` message while a dict body supplies `message`. -/
theorem c6_error_record_totality :
    raiseForStatus resp429Date = .valueErrorRaised ∧
    raiseForStatus resp429NoRA = .raised (.rateLimitError (("429 Too Many Requests")) none) ∧
    raiseForStatus resp429RA60 =
      .raised (.rateLimitError (("429 Too Many Requests")) (some 60)) ∧
    raiseForStatus resp500NotDict =
      .raised (.httpError (("500 Internal Server Error")) 500) ∧
    raiseForStatus resp500MsgBody = .raised (.httpError (("boom")) 500) := by
  exact ⟨rfl, rfl, rfl, rfl, rfl⟩

/-- C3: through the public rest_client `Client` path the connect-twice-then-
succeed scenario with `max_retries = 2` is not retried at all: `make_request`
converts `httpx.ConnectError` into the library's own `ConnectionError`
before the retry handler sees it, `should_retry` recognises only the raw
httpx exception types, and the first converted exception is re-raised after
exactly 1 call. Fed the raw httpx exceptions directly (as the retry module's
own tests do), `RetryHandler.execute` returns the success after exactly 3
calls — the conversion wrapper is what defeats the retry design. -/
theorem c3_client_path_connect_not_retried :
    sendRequest cfgNJ2 rawC3 (fun _ => 0) true =
      (.excRaised .clientConnectionError, 1, []) ∧
    (execute cfgNJ2 fC3direct (fun _ => 0)).result = .ok resp200 ∧
    (execute cfgNJ2 fC3direct (fun _ => 0)).calls = 3 := by
  refine ⟨rfl, ?_⟩
  exact executeLoop_first_ok cfgNJ2 fC3direct (fun _ => 0) 2 (cfgNJ2.max_retries + 1)
    0 none none resp200 (by decide) (by decide) (by decide) (by decide) (by decide)
